import Mathlib

/-!
Shallow embedding of the Kratix promise controller
(src/controllers/promise_controller.go) and proofs about it.

The Go file defines two reconcilers:
 - PromiseReconciler.Reconcile: bootstraps a Promise (creates the CRD,
   the promise-level Work, RBAC objects, a service account, and registers
   a dynamic controller for the new kind);
 - dynamicController.Reconcile: drives a resource request of the new kind
   through finalizer-add, a single pipeline-pod launch, and a delete
   cascade (deleteWork).

Store interactions are embedded as explicit state passing (creates are
add-if-absent, mirroring the AlreadyExists handling in the code); the
error outcomes of the store calls made by the delete cascade are
parameters, since the claims quantify over them. Functions whose Go
counterpart can panic (indexing a possibly-empty slice) return Option,
with none standing for the panic.
-/

namespace Kratix

/-- Embeds ctrl.Result: requeueAfter is the RequeueAfter duration in
seconds, 0 meaning no requeue was requested. -/
structure CtrlResult where
  requeueAfter : Nat
deriving DecidableEq, Repr

/-- Classification of a non-nil Go error as tested by the code:
errors.IsNotFound distinguishes notFound from every other error. -/
inductive Err where
  | notFound : Err
  | other : Err
deriving DecidableEq, Repr, Fintype

/-- Outcome of the client.Get call on the Work in deleteWork. -/
inductive GetWorkOutcome where
  | found : GetWorkOutcome
  | notFound : GetWorkOutcome
  | errOther : GetWorkOutcome
deriving DecidableEq, Repr, Fintype

/-- Outcome of the client.Delete call on the Work in deleteWork. -/
inductive DeleteWorkOutcome where
  | ok : DeleteWorkOutcome
  | notFound : DeleteWorkOutcome
  | errOther : DeleteWorkOutcome
deriving DecidableEq, Repr, Fintype

/-- Outcome of a client.Update call on the resource request record. -/
inductive UpdateOutcome where
  | ok : UpdateOutcome
  | err : UpdateOutcome
deriving DecidableEq, Repr, Fintype

/-- The store-call outcomes observed by one run of the delete cascade. -/
structure DeleteEnv where
  getWork : GetWorkOutcome
  delWork : DeleteWorkOutcome
  updateRequest : UpdateOutcome
deriving DecidableEq, Repr, Fintype

/-- Observable behaviour of one run of deleteWork: whether the finalizer
removal was committed to the store, how many Work lookups, Work deletes
and record updates were attempted, and the returned ctrl.Result and
error. -/
structure DeleteEffects where
  finalizerRemoved : Bool
  workLookups : Nat
  workDeletes : Nat
  recordUpdates : Nat
  result : CtrlResult
  error : Option Err
deriving DecidableEq, Repr

/-- Embeds dynamicController.deleteWork (promise_controller.go lines
497-534). With the finalizer present it gets the Work; on a notFound it
removes the finalizer and updates the record, then (fallthrough in the
Go code) returns RequeueAfter 5s together with the notFound error; on
any other get error it returns RequeueAfter 5s and the error. If the
get succeeds it deletes the Work, with the same error handling. A
successful delete, and the no-finalizer case, fall to the final
return of RequeueAfter 5s with nil error. A failed record update
returns that error with an empty result. -/
def deleteWork (finalizerPresent : Bool) (env : DeleteEnv) : DeleteEffects :=
  if finalizerPresent then
    match env.getWork with
    | GetWorkOutcome.notFound =>
      match env.updateRequest with
      | UpdateOutcome.err =>
        { finalizerRemoved := false, workLookups := 1, workDeletes := 0,
          recordUpdates := 1, result := ⟨0⟩, error := some Err.other }
      | UpdateOutcome.ok =>
        { finalizerRemoved := true, workLookups := 1, workDeletes := 0,
          recordUpdates := 1, result := ⟨5⟩, error := some Err.notFound }
    | GetWorkOutcome.errOther =>
      { finalizerRemoved := false, workLookups := 1, workDeletes := 0,
        recordUpdates := 0, result := ⟨5⟩, error := some Err.other }
    | GetWorkOutcome.found =>
      match env.delWork with
      | DeleteWorkOutcome.ok =>
        { finalizerRemoved := false, workLookups := 1, workDeletes := 1,
          recordUpdates := 0, result := ⟨5⟩, error := none }
      | DeleteWorkOutcome.notFound =>
        match env.updateRequest with
        | UpdateOutcome.err =>
          { finalizerRemoved := false, workLookups := 1, workDeletes := 1,
            recordUpdates := 1, result := ⟨0⟩, error := some Err.other }
        | UpdateOutcome.ok =>
          { finalizerRemoved := true, workLookups := 1, workDeletes := 1,
            recordUpdates := 1, result := ⟨5⟩, error := some Err.notFound }
      | DeleteWorkOutcome.errOther =>
        { finalizerRemoved := false, workLookups := 1, workDeletes := 1,
          recordUpdates := 0, result := ⟨5⟩, error := some Err.other }
  else
    { finalizerRemoved := false, workLookups := 0, workDeletes := 0,
      recordUpdates := 0, result := ⟨5⟩, error := none }

/-- A group-version-kind type descriptor (schema.GroupVersionKind). -/
structure Gvk where
  group : String
  version : String
  kind : String
deriving DecidableEq, Repr

/-- The parameters of one runtime-registered dynamicController
(the fields of the Go struct dynamicController that carry data). -/
structure DynamicControllerCfg where
  gvk : Gvk
  promiseIdentifier : String
  promiseClusterSelector : List (String × String)
  xaasRequestPipeline : List String
deriving DecidableEq, Repr

/-- A resource request record of a promise-declared kind, with the
metadata that dynamicController.Reconcile reads: its kind, namespace,
name, whether a deletion timestamp is set, and its finalizer list. -/
structure ResourceRequest where
  kind : String
  nspace : String
  name : String
  deletionRequested : Bool
  finalizers : List String
deriving DecidableEq, Repr

/-- A container volume mount (v1.VolumeMount). -/
structure VolumeMount where
  mountPath : String
  name : String
deriving DecidableEq, Repr

/-- A container spec with the fields the code sets (v1.Container). -/
structure Container where
  name : String
  image : String
  command : List String
  volumeMounts : List VolumeMount
deriving DecidableEq, Repr

/-- The pipeline executor pod with the fields the code sets (v1.Pod). -/
structure Pod where
  name : String
  nspace : String
  labels : List (String × String)
  serviceAccountName : String
  initContainers : List Container
  containers : List Container
  volumes : List String
deriving DecidableEq, Repr

/-- A config map with the fields the code sets (v1.ConfigMap). -/
structure ConfigMap where
  name : String
  nspace : String
  data : List (String × String)
deriving DecidableEq, Repr

/-- Insertion step for sorting label pairs by key, as labels.Set.String
does before joining. -/
def insertByKey (x : String × String) : List (String × String) → List (String × String)
  | [] => [x]
  | y :: ys => if x.1 ≤ y.1 then x :: y :: ys else y :: insertByKey x ys

/-- Embeds labels.FormatLabels: keys sorted, joined as k=v pairs with
commas. -/
def formatLabels (l : List (String × String)) : String :=
  String.intercalate "," ((l.foldr insertByKey []).map (fun kv => kv.1 ++ "=" ++ kv.2))

/-- Embeds strings.ToLower, mapping Char.toLower over the characters
(String.toLower itself is by well-founded recursion and does not reduce
in the kernel). -/
def lowercase (s : String) : String :=
  ⟨s.data.map Char.toLower⟩

/-- The finalizer string computed at line 320 of the Go file from the
lowercased kind of the fetched object. -/
def finalizerFor (kind : String) : String :=
  "finalizers." ++ lowercase kind ++ ".resource-request.kratix.io/work-cleanup"

/-- Generic add-if-absent store create: if a record with the same key
already exists the create fails with AlreadyExists, which every call
site logs and swallows, leaving the store unchanged. -/
def createKeyed {α : Type} (key : α → String) (xs : List α) (x : α) : List α :=
  if xs.any (fun y => key y == key x) then xs else xs ++ [x]

/-- Embeds dynamicController.pipelineHasExecuted: list the pods in
namespace default whose label kratix-promise-resource-request-id equals
the identifier; a list error yields false, otherwise the answer is
whether the list is non-empty. -/
def pipelineHasExecuted (pods : List Pod) (resourceRequestIdentifier : String)
    (listErr : Bool) : Bool :=
  if listErr then false
  else
    (pods.filter (fun p =>
      p.nspace == "default" &&
        p.labels.contains ("kratix-promise-resource-request-id", resourceRequestIdentifier))).length > 0

/-- The reader init container (materialization stage synthesized by the
controller): runs kubectl to dump the resource request into the input
staging area. -/
def readerContainer (gvk : Gvk) (reqName reqNs : String) : Container :=
  { name := "reader"
    image := "bitnami/kubectl:1.20.10"
    command := ["sh", "-c",
      "kubectl get " ++ lowercase gvk.kind ++ "." ++ gvk.group ++ " " ++ reqName ++
        " --namespace " ++ reqNs ++ " -oyaml > /output/object.yaml"]
    volumeMounts := [⟨"/output", "input"⟩] }

/-- The single declared-image init container the code constructs, always
named xaas-request-pipeline-stage-1, with no command (the image
entrypoint is used) and the three shared staging mounts. -/
def pipelineStageContainer (image : String) : Container :=
  { name := "xaas-request-pipeline-stage-1"
    image := image
    command := []
    volumeMounts := [⟨"/input", "input"⟩, ⟨"/output", "output"⟩, ⟨"/metadata", "metadata"⟩] }

/-- The writer main container: runs the work-creator over the output and
metadata staging areas plus the cluster-selector config area. -/
def writerContainer (wcImg resourceRequestIdentifier : String) : Container :=
  { name := "writer"
    image := wcImg
    command := ["sh", "-c",
      "./work-creator -identifier " ++ resourceRequestIdentifier ++
        " -input-directory /work-creator-files"]
    volumeMounts := [⟨"/work-creator-files/input", "output"⟩,
      ⟨"/work-creator-files/metadata", "metadata"⟩,
      ⟨"/work-creator-files/kratix-system", "promise-cluster-selectors"⟩] }

/-- Embeds the pod literal of dynamicController.Reconcile (lines
356-459). The Go code indexes r.xaasRequestPipeline[0] without a bounds
check, so an empty pipeline list panics: that is the none case. -/
def buildPipelinePod (cfg : DynamicControllerCfg) (resourceRequestIdentifier : String)
    (reqName reqNs wcImg uuid : String) : Option Pod :=
  match cfg.xaasRequestPipeline[0]? with
  | none => none
  | some stage1Image =>
    some
      { name := "request-pipeline-" ++ cfg.promiseIdentifier ++ "-" ++ uuid
        nspace := "default"
        labels := [("kratix-promise-id", cfg.promiseIdentifier),
          ("kratix-promise-resource-request-id", resourceRequestIdentifier)]
        serviceAccountName := cfg.promiseIdentifier ++ "-sa"
        initContainers := [readerContainer cfg.gvk reqName reqNs,
          pipelineStageContainer stage1Image]
        containers := [writerContainer wcImg resourceRequestIdentifier]
        volumes := ["input", "output", "metadata", "promise-cluster-selectors"] }

/-- The config map literal of dynamicController.Reconcile (lines
345-353). -/
def buildConfigMap (cfg : DynamicControllerCfg) : ConfigMap :=
  { name := "cluster-selectors-" ++ cfg.promiseIdentifier
    nspace := "default"
    data := [("selectors", formatLabels cfg.promiseClusterSelector)] }

/-- The store state read and written by one dynamicController
reconciliation: the resource request record at the request key (none
when the store reports notFound) and the pods and config maps in the
store. -/
structure DynState where
  request : Option ResourceRequest
  pods : List Pod
  configMaps : List ConfigMap
deriving DecidableEq, Repr

/-- Store-call outcomes and ambient inputs for one dynamicController
reconciliation: the delete-cascade outcomes, the outcome of the
finalizer-add update, whether the pod list call fails, the WC_IMG
environment variable, and the short uuid used in the pod name. -/
structure DynEnv where
  deleteEnv : DeleteEnv
  updateRequest : UpdateOutcome
  listPodsErr : Bool
  wcImg : String
  uuid : String
deriving DecidableEq, Repr

/-- Result of one dynamicController reconciliation: the new store state,
the returned ctrl.Result and error, and the delete-cascade effects when
that path ran. -/
structure DynOutcome where
  state : DynState
  result : CtrlResult
  error : Option Err
  deleteEffects : Option DeleteEffects
deriving DecidableEq, Repr

/-- Embeds dynamicController.Reconcile (lines 303-476). A missing
request is a terminal no-op. A deletion-requested record runs the
delete cascade. A record without the finalizer gets it added and the
record updated, then returns. Otherwise, if a pipeline pod for this
request identifier already exists the run is a no-op; else the config
map and pipeline pod are created (create errors logged and swallowed).
Returns none when the Go code would panic on an empty pipeline list. -/
def dynamicReconcile (cfg : DynamicControllerCfg) (reqNs reqName : String)
    (s : DynState) (env : DynEnv) : Option DynOutcome :=
  let resourceRequestIdentifier :=
    cfg.promiseIdentifier ++ "-" ++ reqNs ++ "-" ++ reqName
  match s.request with
  | none => some ⟨s, ⟨0⟩, none, none⟩
  | some rr =>
    let finalizer := finalizerFor rr.kind
    if rr.deletionRequested then
      let eff := deleteWork (rr.finalizers.contains finalizer) env.deleteEnv
      let s1 :=
        if eff.finalizerRemoved then
          { s with request := some { rr with finalizers := rr.finalizers.erase finalizer } }
        else s
      some ⟨s1, eff.result, eff.error, some eff⟩
    else if !(rr.finalizers.contains finalizer) then
      match env.updateRequest with
      | UpdateOutcome.err => some ⟨s, ⟨0⟩, some Err.other, none⟩
      | UpdateOutcome.ok =>
        some ⟨{ s with request := some { rr with finalizers := rr.finalizers ++ [finalizer] } },
          ⟨0⟩, none, none⟩
    else if pipelineHasExecuted s.pods resourceRequestIdentifier env.listPodsErr then
      some ⟨s, ⟨0⟩, none, none⟩
    else
      match buildPipelinePod cfg resourceRequestIdentifier reqName reqNs env.wcImg env.uuid with
      | none => none
      | some pod =>
        let cms := createKeyed (fun c => c.nspace ++ "/" ++ c.name) s.configMaps (buildConfigMap cfg)
        let pods := createKeyed (fun p => p.nspace ++ "/" ++ p.name) s.pods pod
        some ⟨⟨s.request, pods, cms⟩, ⟨0⟩, none, none⟩

/-- An opaque structured document (unstructured.Unstructured), carried
around but never inspected by this controller. -/
structure Manifest where
  doc : String
deriving DecidableEq, Repr

/-- Modelled from the spec: the constant v1alpha1.WorkerResourceReplicas
from the api package (not under src/), the sentinel replica count
meaning one copy per matching cluster. -/
def WorkerResourceReplicas : Int := -1

/-- A Work record with the fields the code sets (v1alpha1.Work). -/
structure Work where
  name : String
  nspace : String
  replicas : Int
  clusterSelector : List (String × String)
  manifests : List Manifest
deriving DecidableEq, Repr

/-- The naming block of a CRD (Spec.Names). -/
structure CrdNames where
  kind : String
  plural : String
deriving DecidableEq, Repr

/-- A custom resource definition with the fields the code reads:
metadata name, Spec.Group, the version names of Spec.Versions, and
Spec.Names. -/
structure CRD where
  name : String
  group : String
  versions : List String
  names : CrdNames
deriving DecidableEq, Repr

/-- A Promise record with the fields the code reads. The embedded raw
CRD payload is modelled as Option CRD: none stands for a payload on
which json.Unmarshal fails. -/
structure Promise where
  name : String
  nspace : String
  xaasCrd : Option CRD
  clusterSelector : List (String × String)
  xaasRequestPipeline : List String
  workerClusterResources : List Manifest
deriving DecidableEq, Repr

/-- An RBAC policy rule (rbacv1.PolicyRule). -/
structure PolicyRule where
  apiGroups : List String
  resources : List String
  verbs : List String
deriving DecidableEq, Repr

/-- A cluster role (rbacv1.ClusterRole). -/
structure ClusterRole where
  name : String
  rules : List PolicyRule
deriving DecidableEq, Repr

/-- A role reference (rbacv1.RoleRef). -/
structure RoleRef where
  kind : String
  apiGroup : String
  name : String
deriving DecidableEq, Repr

/-- A binding subject (rbacv1.Subject). -/
structure Subject where
  kind : String
  nspace : String
  name : String
deriving DecidableEq, Repr

/-- A cluster role binding (rbacv1.ClusterRoleBinding). -/
structure ClusterRoleBinding where
  name : String
  roleRef : RoleRef
  subjects : List Subject
deriving DecidableEq, Repr

/-- A service account (v1.ServiceAccount). -/
structure ServiceAccount where
  name : String
  nspace : String
deriving DecidableEq, Repr

/-- The store state read and written by PromiseReconciler.Reconcile,
plus two pieces of manager state: the set of gvks the REST mapper can
already resolve (the type directory, which propagates asynchronously
from CRD creation), and the list of dynamic controllers registered so
far (each Complete call appends one). -/
structure PlatformState where
  promises : List Promise
  crds : List CRD
  works : List Work
  clusterRoles : List ClusterRole
  clusterRoleBindings : List ClusterRoleBinding
  serviceAccounts : List ServiceAccount
  queryableGvks : List Gvk
  registered : List DynamicControllerCfg
deriving DecidableEq, Repr

/-- Embeds PromiseReconciler.gvkDoesNotExist: the REST mapper lookup
fails exactly when the gvk is not in the type directory. -/
def gvkDoesNotExist (s : PlatformState) (gvk : Gvk) : Bool :=
  !(s.queryableGvks.contains gvk)

/-- The controller cluster role literal (lines 157-183). -/
def controllerClusterRole (promiseIdentifier group plural : String) : ClusterRole :=
  { name := promiseIdentifier ++ "-promise-controller"
    rules := [
      ⟨[group], [plural], ["get", "list", "update", "create", "patch", "delete", "watch"]⟩,
      ⟨[group], [plural ++ "/finalizers"], ["update"]⟩,
      ⟨[group], [plural ++ "/status"], ["get", "update", "patch"]⟩,
      ⟨[""], ["configmaps"], ["create"]⟩] }

/-- The controller cluster role binding literal (lines 189-205). -/
def controllerClusterRoleBinding (promiseIdentifier : String) : ClusterRoleBinding :=
  { name := promiseIdentifier ++ "-promise-controller-binding"
    roleRef := ⟨"ClusterRole", "rbac.authorization.k8s.io", promiseIdentifier ++ "-promise-controller"⟩
    subjects := [⟨"ServiceAccount", "kratix-platform-system", "kratix-platform-controller-manager"⟩] }

/-- The pipeline cluster role literal (lines 213-229). -/
def pipelineClusterRole (promiseIdentifier group plural : String) : ClusterRole :=
  { name := promiseIdentifier ++ "-promise-pipeline"
    rules := [
      ⟨[group], [plural], ["get", "list", "update", "create", "patch"]⟩,
      ⟨["platform.kratix.io"], ["works"], ["get", "update", "create", "patch"]⟩] }

/-- The pipeline cluster role binding literal (lines 235-251). -/
def pipelineClusterRoleBinding (promiseIdentifier : String) : ClusterRoleBinding :=
  { name := promiseIdentifier ++ "-promise-pipeline-binding"
    roleRef := ⟨"ClusterRole", "rbac.authorization.k8s.io", promiseIdentifier ++ "-promise-pipeline"⟩
    subjects := [⟨"ServiceAccount", "default", promiseIdentifier ++ "-sa"⟩] }

/-- The Promise-level Work literal (lines 134-142). -/
def promiseWork (promise : Promise) : Work :=
  { name := promise.name ++ "-" ++ promise.nspace
    nspace := "default"
    replicas := WorkerResourceReplicas
    clusterSelector := promise.clusterSelector
    manifests := promise.workerClusterResources }

/-- Embeds PromiseReconciler.Reconcile (lines 88-289). A missing
Promise, or one whose CRD payload does not unmarshal, ends the run
without error. The CRD is submitted (AlreadyExists logged and
swallowed). If the new gvk is not queryable yet the run requeues after
5 seconds. The Promise-level Work is submitted; any create error
(AlreadyExists included) ends the run without error. Then the two
cluster roles, two bindings and the service account are created (errors
logged and swallowed) and a dynamic controller for the new gvk is
registered. Returns none when the Go code would panic indexing
Spec.Versions[0] of a CRD with no versions. -/
def promiseReconcile (s : PlatformState) (reqName reqNs : String) :
    Option (PlatformState × CtrlResult × Option Err) :=
  match s.promises.find? (fun p => p.name == reqName && p.nspace == reqNs) with
  | none => some (s, ⟨0⟩, none)
  | some promise =>
    match promise.xaasCrd with
    | none => some (s, ⟨0⟩, none)
    | some crdToCreate =>
      let s := { s with crds := createKeyed (fun c => c.name) s.crds crdToCreate }
      match crdToCreate.versions[0]? with
      | none => none
      | some version0 =>
        let gvk : Gvk := ⟨crdToCreate.group, version0, crdToCreate.names.kind⟩
        if gvkDoesNotExist s gvk then
          some (s, ⟨5⟩, none)
        else
          let promiseIdentifier := promise.name ++ "-" ++ promise.nspace
          if s.works.any (fun w =>
              w.nspace == "default" && w.name == promiseIdentifier) then
            some (s, ⟨0⟩, none)
          else
            let cr1 := controllerClusterRole promiseIdentifier gvk.group crdToCreate.names.plural
            let crb1 := controllerClusterRoleBinding promiseIdentifier
            let cr2 := pipelineClusterRole promiseIdentifier gvk.group crdToCreate.names.plural
            let crb2 := pipelineClusterRoleBinding promiseIdentifier
            let sa : ServiceAccount := ⟨promiseIdentifier ++ "-sa", "default"⟩
            let cfg : DynamicControllerCfg :=
              ⟨gvk, promiseIdentifier, promise.clusterSelector, promise.xaasRequestPipeline⟩
            let s := { s with works := s.works ++ [promiseWork promise] }
            let s := { s with clusterRoles := createKeyed (fun c => c.name) s.clusterRoles cr1 }
            let s := { s with clusterRoleBindings := createKeyed (fun c => c.name) s.clusterRoleBindings crb1 }
            let s := { s with clusterRoles := createKeyed (fun c => c.name) s.clusterRoles cr2 }
            let s := { s with clusterRoleBindings := createKeyed (fun c => c.name) s.clusterRoleBindings crb2 }
            let s := { s with serviceAccounts := createKeyed (fun a => a.nspace ++ "/" ++ a.name) s.serviceAccounts sa }
            let s := { s with registered := s.registered ++ [cfg] }
            some (s, ⟨0⟩, none)

/-- The state produced by one full (uninterrupted) bootstrap run of
promiseReconcile from state s for the given promise, decoded CRD and
first version name. -/
def bootstrapState (s : PlatformState) (promise : Promise) (crd : CRD) (v : String) : PlatformState :=
  let gvk : Gvk := ⟨crd.group, v, crd.names.kind⟩
  let pid := promise.name ++ "-" ++ promise.nspace
  { s with
    crds := createKeyed (fun c => c.name) s.crds crd
    works := s.works ++ [promiseWork promise]
    clusterRoles := createKeyed (fun c => c.name)
      (createKeyed (fun c => c.name) s.clusterRoles (controllerClusterRole pid gvk.group crd.names.plural))
      (pipelineClusterRole pid gvk.group crd.names.plural)
    clusterRoleBindings := createKeyed (fun c => c.name)
      (createKeyed (fun c => c.name) s.clusterRoleBindings (controllerClusterRoleBinding pid))
      (pipelineClusterRoleBinding pid)
    serviceAccounts := createKeyed (fun a => a.nspace ++ "/" ++ a.name) s.serviceAccounts
      ⟨pid ++ "-sa", "default"⟩
    registered := s.registered ++ [⟨gvk, pid, promise.clusterSelector, promise.xaasRequestPipeline⟩] }

/-- A concrete CRD fixture used by the witnesses (Scenario A shape). -/
def redisCrd : CRD :=
  ⟨"redis.platform.kratix.io", "platform.kratix.io", ["v1alpha1"], ⟨"Redis", "redis"⟩⟩

/-- A concrete Promise fixture: promise redis in namespace default with
selector env=dev, one pipeline image and one cluster-wide manifest. -/
def redisPromise : Promise :=
  ⟨"redis", "default", some redisCrd, [("env", "dev")], ["imageA"], [⟨"a-cluster-wide-manifest"⟩]⟩

/-- A platform state holding only the redis Promise, with the new gvk
already queryable. -/
def redisReadyState : PlatformState :=
  ⟨[redisPromise], [], [], [], [], [], [⟨"platform.kratix.io", "v1alpha1", "Redis"⟩], []⟩

/-- A platform state holding only the redis Promise, with the new gvk
not yet propagated to the type directory. -/
def redisUnpropagatedState : PlatformState :=
  ⟨[redisPromise], [], [], [], [], [], [], []⟩

/-- A concrete dynamic-controller fixture for the redis Promise. -/
def redisCfg : DynamicControllerCfg :=
  ⟨⟨"platform.kratix.io", "v1alpha1", "Redis"⟩, "redis-default", [("env", "dev")], ["imageA"]⟩

/-- A concrete store-call environment for the dynamic reconciler in
which every store call succeeds. -/
def allOkDynEnv : DynEnv :=
  ⟨⟨GetWorkOutcome.found, DeleteWorkOutcome.ok, UpdateOutcome.ok⟩, UpdateOutcome.ok, false, "wc-img", "abcde"⟩

/-- A concrete active resource request: not deleted, cleanup finalizer
present. -/
def activeRedisRequest : ResourceRequest :=
  ⟨"Redis", "default", "my-redis", false,
    ["finalizers.redis.resource-request.kratix.io/work-cleanup"]⟩

/-- A concrete previously-launched pipeline pod carrying the request
correlation label. -/
def observedPod : Pod :=
  ⟨"request-pipeline-redis-default-fffff", "default",
    [("kratix-promise-id", "redis-default"),
      ("kratix-promise-resource-request-id", "redis-default-default-my-redis")],
    "redis-default-sa", [], [], []⟩

/-- A concrete dynamic-controller fixture declaring two pipeline
images. -/
def twoImageCfg : DynamicControllerCfg :=
  ⟨⟨"platform.kratix.io", "v1alpha1", "Redis"⟩, "redis-default", [("env", "dev")],
    ["imageA", "imageB"]⟩

/-- A concrete dynamic-controller fixture declaring no pipeline
images. -/
def emptyPipelineCfg : DynamicControllerCfg :=
  ⟨⟨"platform.kratix.io", "v1alpha1", "Redis"⟩, "redis-default", [("env", "dev")], []⟩

/-- Helper: a createKeyed result always contains an element with the
key of the inserted element. -/
theorem createKeyed_any_self {α : Type} (key : α → String) (xs : List α) (x : α) :
    (createKeyed key xs x).any (fun y => key y == key x) = true := by
  unfold createKeyed
  split
  · assumption
  · simp [List.any_append]

/-- Helper: creating an element whose key is already present leaves the
store unchanged. -/
theorem createKeyed_of_any {α : Type} (key : α → String) (xs : List α) (x : α)
    (h : xs.any (fun y => key y == key x) = true) :
    createKeyed key xs x = xs := by
  simp [createKeyed, h]

/-- C2: in the delete cascade the finalizer removal is committed only
in a run in which the store reported the Work notFound, on the lookup
or on the delete; and on any other lookup or delete error the finalizer
is kept and a retry after 5 seconds is signalled. -/
theorem delete_cascade_finalizer_gated :
    ∀ (finalizerPresent : Bool) (env : DeleteEnv),
      ((deleteWork finalizerPresent env).finalizerRemoved = true →
        env.getWork = GetWorkOutcome.notFound ∨
          (env.getWork = GetWorkOutcome.found ∧ env.delWork = DeleteWorkOutcome.notFound))
      ∧ ((env.getWork = GetWorkOutcome.errOther ∨
          (env.getWork = GetWorkOutcome.found ∧ env.delWork = DeleteWorkOutcome.errOther)) →
        (deleteWork finalizerPresent env).finalizerRemoved = false ∧
          (deleteWork finalizerPresent env).result = ⟨5⟩) := by
  decide

/-- Witness for C2 at concrete environments: a run that removed the
finalizer did see notFound, and a run with an unexpected lookup error
kept the finalizer and requeued after 5 seconds. -/
theorem delete_cascade_finalizer_gated_witness :
    ((DeleteEnv.mk GetWorkOutcome.notFound DeleteWorkOutcome.ok UpdateOutcome.ok).getWork =
        GetWorkOutcome.notFound ∨
      ((DeleteEnv.mk GetWorkOutcome.notFound DeleteWorkOutcome.ok UpdateOutcome.ok).getWork =
          GetWorkOutcome.found ∧
        (DeleteEnv.mk GetWorkOutcome.notFound DeleteWorkOutcome.ok UpdateOutcome.ok).delWork =
          DeleteWorkOutcome.notFound))
    ∧ ((deleteWork true ⟨GetWorkOutcome.errOther, DeleteWorkOutcome.ok, UpdateOutcome.ok⟩).finalizerRemoved = false ∧
      (deleteWork true ⟨GetWorkOutcome.errOther, DeleteWorkOutcome.ok, UpdateOutcome.ok⟩).result = ⟨5⟩) :=
  ⟨(delete_cascade_finalizer_gated true
      ⟨GetWorkOutcome.notFound, DeleteWorkOutcome.ok, UpdateOutcome.ok⟩).1 (by decide),
   (delete_cascade_finalizer_gated true
      ⟨GetWorkOutcome.errOther, DeleteWorkOutcome.ok, UpdateOutcome.ok⟩).2 (by decide)⟩

/-- C8 counterexample: with the finalizer present, a notFound on the
Work lookup and a successful record update, the cascade does not return
a clean terminal result: it requeues after 5 seconds and propagates the
notFound error. -/
theorem delete_lookup_notFound_not_terminal :
    ¬((deleteWork true ⟨GetWorkOutcome.notFound, DeleteWorkOutcome.ok, UpdateOutcome.ok⟩).result.requeueAfter = 0 ∧
      (deleteWork true ⟨GetWorkOutcome.notFound, DeleteWorkOutcome.ok, UpdateOutcome.ok⟩).error = none) := by
  decide

/-- C8 amended: when the Work lookup reports notFound and the record
update succeeds, the cascade removes the finalizer and updates the
record, but then returns the notFound error together with a 5 second
requeue instead of a clean terminal result. -/
theorem delete_lookup_notFound_removes_finalizer (d : DeleteWorkOutcome) :
    deleteWork true ⟨GetWorkOutcome.notFound, d, UpdateOutcome.ok⟩ =
      ⟨true, 1, 0, 1, ⟨5⟩, some Err.notFound⟩ := by
  cases d <;> rfl

/-- Witness for C8 amended at a concrete environment. -/
theorem delete_lookup_notFound_removes_finalizer_witness :
    deleteWork true ⟨GetWorkOutcome.notFound, DeleteWorkOutcome.ok, UpdateOutcome.ok⟩ =
      ⟨true, 1, 0, 1, ⟨5⟩, some Err.notFound⟩ :=
  delete_lookup_notFound_removes_finalizer DeleteWorkOutcome.ok

/-- C9 counterexample: a deletion-requested request without the
finalizer yields an unchanged store, no error, and no store calls, but
the returned result requeues after 5 seconds rather than terminating. -/
theorem delete_no_finalizer_requeues :
    dynamicReconcile redisCfg "default" "my-redis"
        ⟨some ⟨"Redis", "default", "my-redis", true, []⟩, [], []⟩ allOkDynEnv =
      some ⟨⟨some ⟨"Redis", "default", "my-redis", true, []⟩, [], []⟩, ⟨5⟩, none,
        some ⟨false, 0, 0, 0, ⟨5⟩, none⟩⟩
    ∧ (5 : Nat) ≠ 0 := by
  decide

/-- C9 amended: for every deletion-requested request whose finalizer is
absent, the reconciliation performs no Work lookup, no Work delete and
no record update and returns no error, but signals a 5 second requeue
rather than terminating. -/
theorem delete_no_finalizer_noop (cfg : DynamicControllerCfg) (reqNs reqName : String)
    (s : DynState) (env : DynEnv) (rr : ResourceRequest)
    (hreq : s.request = some rr) (hdel : rr.deletionRequested = true)
    (hfin : rr.finalizers.contains (finalizerFor rr.kind) = false) :
    dynamicReconcile cfg reqNs reqName s env =
      some ⟨s, ⟨5⟩, none, some ⟨false, 0, 0, 0, ⟨5⟩, none⟩⟩ := by
  have hfin2 : finalizerFor rr.kind ∉ rr.finalizers := by simpa using hfin
  simp [dynamicReconcile, hreq, hdel, hfin2, deleteWork]

/-- Witness for C9 amended at a concrete request. -/
theorem delete_no_finalizer_noop_witness :
    dynamicReconcile redisCfg "default" "other-redis"
        ⟨some ⟨"Redis", "default", "other-redis", true, []⟩, [], []⟩ allOkDynEnv =
      some ⟨⟨some ⟨"Redis", "default", "other-redis", true, []⟩, [], []⟩, ⟨5⟩, none,
        some ⟨false, 0, 0, 0, ⟨5⟩, none⟩⟩ :=
  delete_no_finalizer_noop redisCfg "default" "other-redis"
    ⟨some ⟨"Redis", "default", "other-redis", true, []⟩, [], []⟩ allOkDynEnv
    ⟨"Redis", "default", "other-redis", true, []⟩ rfl rfl (by decide)

/-- Helper: a full bootstrap run. If the Promise is found, its CRD
payload decodes, the new gvk is queryable and no Work with the promise
identifier exists yet, promiseReconcile performs every step and ends in
bootstrapState with a clean result. -/
theorem promiseReconcile_success (s : PlatformState) (reqName reqNs : String)
    (promise : Promise) (crd : CRD) (v : String)
    (hfind : s.promises.find? (fun p => p.name == reqName && p.nspace == reqNs) = some promise)
    (hcrd : promise.xaasCrd = some crd)
    (hv : crd.versions[0]? = some v)
    (hq : s.queryableGvks.contains (Gvk.mk crd.group v crd.names.kind) = true)
    (hw : s.works.any (fun w =>
      w.nspace == "default" && w.name == promise.name ++ "-" ++ promise.nspace) = false) :
    promiseReconcile s reqName reqNs = some (bootstrapState s promise crd v, ⟨0⟩, none) := by
  have hq2 : (Gvk.mk crd.group v crd.names.kind) ∈ s.queryableGvks := by simpa using hq
  simp [promiseReconcile, hfind, hcrd, hv, gvkDoesNotExist, hq2, hw, bootstrapState]

/-- Helper: a bootstrap run over a state that already holds the CRD and
the promise-level Work ends early at the Work creation conflict,
changing nothing. -/
theorem promiseReconcile_already (s : PlatformState) (reqName reqNs : String)
    (promise : Promise) (crd : CRD) (v : String)
    (hfind : s.promises.find? (fun p => p.name == reqName && p.nspace == reqNs) = some promise)
    (hcrd : promise.xaasCrd = some crd)
    (hcrdmem : s.crds.any (fun c => c.name == crd.name) = true)
    (hv : crd.versions[0]? = some v)
    (hq : s.queryableGvks.contains (Gvk.mk crd.group v crd.names.kind) = true)
    (hwork : s.works.any (fun w =>
      w.nspace == "default" && w.name == promise.name ++ "-" ++ promise.nspace) = true) :
    promiseReconcile s reqName reqNs = some (s, ⟨0⟩, none) := by
  have hq2 : (Gvk.mk crd.group v crd.names.kind) ∈ s.queryableGvks := by simpa using hq
  have hcrds : createKeyed (fun c => c.name) s.crds crd = s.crds :=
    createKeyed_of_any _ _ _ hcrdmem
  simp [promiseReconcile, hfind, hcrd, hcrds, hv, gvkDoesNotExist, hq2, hwork]

/-- C3: a bootstrap reconciliation that observes a not-yet-queryable
new type only submits the CRD; it creates no Work, no cluster role, no
binding and no service account, registers no dynamic controller, and
returns a 5 second requeue with no error. -/
theorem type_gate_requeues (s : PlatformState) (reqName reqNs : String)
    (promise : Promise) (crd : CRD) (v : String)
    (hfind : s.promises.find? (fun p => p.name == reqName && p.nspace == reqNs) = some promise)
    (hcrd : promise.xaasCrd = some crd)
    (hv : crd.versions[0]? = some v)
    (hq : s.queryableGvks.contains (Gvk.mk crd.group v crd.names.kind) = false) :
    promiseReconcile s reqName reqNs =
      some ({ s with crds := createKeyed (fun c => c.name) s.crds crd }, ⟨5⟩, none) := by
  have hq2 : (Gvk.mk crd.group v crd.names.kind) ∉ s.queryableGvks := by simpa using hq
  simp [promiseReconcile, hfind, hcrd, hv, gvkDoesNotExist, hq2]

/-- Witness for C3 at the concrete redis Promise with an unpropagated
type directory. -/
theorem type_gate_requeues_witness :
    promiseReconcile redisUnpropagatedState "redis" "default" =
      some ({ redisUnpropagatedState with
        crds := createKeyed (fun c => c.name) redisUnpropagatedState.crds redisCrd }, ⟨5⟩, none) :=
  type_gate_requeues redisUnpropagatedState "redis" "default" redisPromise redisCrd "v1alpha1"
    (by decide) rfl rfl (by decide)

/-- C4: running the bootstrap twice in sequence with no intervening
state change and the new type queryable is idempotent: the second run
returns the state of the first run unchanged, and exactly one dynamic
controller registration happens in total. -/
theorem bootstrap_idempotent (s : PlatformState) (reqName reqNs : String)
    (promise : Promise) (crd : CRD) (v : String)
    (hfind : s.promises.find? (fun p => p.name == reqName && p.nspace == reqNs) = some promise)
    (hcrd : promise.xaasCrd = some crd)
    (hv : crd.versions[0]? = some v)
    (hq : s.queryableGvks.contains (Gvk.mk crd.group v crd.names.kind) = true)
    (hw : s.works.any (fun w =>
      w.nspace == "default" && w.name == promise.name ++ "-" ++ promise.nspace) = false) :
    promiseReconcile s reqName reqNs = some (bootstrapState s promise crd v, ⟨0⟩, none)
    ∧ promiseReconcile (bootstrapState s promise crd v) reqName reqNs =
        some (bootstrapState s promise crd v, ⟨0⟩, none)
    ∧ (bootstrapState s promise crd v).registered = s.registered ++
        [⟨⟨crd.group, v, crd.names.kind⟩, promise.name ++ "-" ++ promise.nspace,
          promise.clusterSelector, promise.xaasRequestPipeline⟩] := by
  refine ⟨promiseReconcile_success s reqName reqNs promise crd v hfind hcrd hv hq hw, ?_, rfl⟩
  apply promiseReconcile_already (bootstrapState s promise crd v) reqName reqNs promise crd v
  · exact hfind
  · exact hcrd
  · simpa [bootstrapState] using createKeyed_any_self (fun c => c.name) s.crds crd
  · exact hv
  · exact hq
  · simp [bootstrapState, List.any_append, promiseWork]

/-- Witness for C4 at the concrete redis fixtures. -/
theorem bootstrap_idempotent_witness :
    promiseReconcile redisReadyState "redis" "default" =
      some (bootstrapState redisReadyState redisPromise redisCrd "v1alpha1", ⟨0⟩, none)
    ∧ promiseReconcile (bootstrapState redisReadyState redisPromise redisCrd "v1alpha1")
        "redis" "default" =
      some (bootstrapState redisReadyState redisPromise redisCrd "v1alpha1", ⟨0⟩, none)
    ∧ (bootstrapState redisReadyState redisPromise redisCrd "v1alpha1").registered =
      redisReadyState.registered ++
        [⟨⟨"platform.kratix.io", "v1alpha1", "Redis"⟩, "redis-default",
          [("env", "dev")], ["imageA"]⟩] :=
  bootstrap_idempotent redisReadyState "redis" "default" redisPromise redisCrd "v1alpha1"
    (by decide) rfl rfl (by decide) rfl

/-- C5: a successful bootstrap appends exactly one promise-level Work,
whose name is the promise name concatenated with its namespace, whose
replicas field is the one-per-matching-cluster sentinel, whose
clusterSelector is the Promise selector and whose manifests are the
declared cluster-wide manifests in order. -/
theorem promise_work_shape (s : PlatformState) (reqName reqNs : String)
    (promise : Promise) (crd : CRD) (v : String)
    (hfind : s.promises.find? (fun p => p.name == reqName && p.nspace == reqNs) = some promise)
    (hcrd : promise.xaasCrd = some crd)
    (hv : crd.versions[0]? = some v)
    (hq : s.queryableGvks.contains (Gvk.mk crd.group v crd.names.kind) = true)
    (hw : s.works.any (fun w =>
      w.nspace == "default" && w.name == promise.name ++ "-" ++ promise.nspace) = false) :
    promiseReconcile s reqName reqNs = some (bootstrapState s promise crd v, ⟨0⟩, none)
    ∧ (bootstrapState s promise crd v).works = s.works ++ [promiseWork promise]
    ∧ promiseWork promise = ⟨promise.name ++ "-" ++ promise.nspace, "default",
        WorkerResourceReplicas, promise.clusterSelector, promise.workerClusterResources⟩ :=
  ⟨promiseReconcile_success s reqName reqNs promise crd v hfind hcrd hv hq hw, rfl, rfl⟩

/-- Witness for C5, Scenario A: promise redis in namespace default with
selector env=dev produces the Work named redis-default with that
selector and the declared cluster-wide manifests. -/
theorem promise_work_shape_witness :
    promiseReconcile redisReadyState "redis" "default" =
      some (bootstrapState redisReadyState redisPromise redisCrd "v1alpha1", ⟨0⟩, none)
    ∧ (bootstrapState redisReadyState redisPromise redisCrd "v1alpha1").works =
      redisReadyState.works ++ [promiseWork redisPromise]
    ∧ promiseWork redisPromise = ⟨"redis-default", "default", WorkerResourceReplicas,
        [("env", "dev")], [⟨"a-cluster-wide-manifest"⟩]⟩ :=
  promise_work_shape redisReadyState "redis" "default" redisPromise redisCrd "v1alpha1"
    (by decide) rfl rfl (by decide) rfl

/-- C1: for an active request (present, not deleted, finalizer present),
whenever the executor lookup returns a non-empty list for the request
identifier, the reconciler creates no pod and no config map, leaves the
store unchanged and returns without error and without requeue. -/
theorem pipeline_at_most_once (cfg : DynamicControllerCfg) (reqNs reqName : String)
    (s : DynState) (env : DynEnv) (rr : ResourceRequest)
    (hreq : s.request = some rr) (hdel : rr.deletionRequested = false)
    (hfin : rr.finalizers.contains (finalizerFor rr.kind) = true)
    (hrun : pipelineHasExecuted s.pods
      (cfg.promiseIdentifier ++ "-" ++ reqNs ++ "-" ++ reqName) env.listPodsErr = true) :
    dynamicReconcile cfg reqNs reqName s env = some ⟨s, ⟨0⟩, none, none⟩ := by
  have hfin2 : finalizerFor rr.kind ∈ rr.finalizers := by simpa using hfin
  simp [dynamicReconcile, hreq, hdel, hfin2, hrun]

/-- Witness for C1: with one labelled executor pod already in the
store, reconciling the active request changes nothing. -/
theorem pipeline_at_most_once_witness :
    dynamicReconcile redisCfg "default" "my-redis"
        ⟨some activeRedisRequest, [observedPod], []⟩ allOkDynEnv =
      some ⟨⟨some activeRedisRequest, [observedPod], []⟩, ⟨0⟩, none, none⟩ :=
  pipeline_at_most_once redisCfg "default" "my-redis"
    ⟨some activeRedisRequest, [observedPod], []⟩ allOkDynEnv activeRedisRequest
    rfl rfl (by decide) (by decide)

/-- C6 counterexample: the finalizer the reconciler adds to a Redis
request is the string
finalizers.redis.resource-request.kratix.io/work-cleanup, which is not
redis-cleanup. -/
theorem finalizer_token_counterexample :
    dynamicReconcile redisCfg "default" "my-redis"
        ⟨some ⟨"Redis", "default", "my-redis", false, []⟩, [], []⟩ allOkDynEnv =
      some ⟨⟨some ⟨"Redis", "default", "my-redis", false,
        ["finalizers.redis.resource-request.kratix.io/work-cleanup"]⟩, [], []⟩, ⟨0⟩, none, none⟩
    ∧ "finalizers.redis.resource-request.kratix.io/work-cleanup" ≠ "redis-cleanup" := by
  decide

/-- C6 amended: the cleanup finalizer token added by the reconciler to
a request whose finalizer is absent is
finalizers.LOWERKIND.resource-request.kratix.io/work-cleanup for the
lowercased kind LOWERKIND, and the record is updated with exactly that
token appended. -/
theorem finalizer_token_amended (cfg : DynamicControllerCfg) (reqNs reqName : String)
    (s : DynState) (env : DynEnv) (rr : ResourceRequest)
    (hreq : s.request = some rr) (hdel : rr.deletionRequested = false)
    (hfin : rr.finalizers.contains (finalizerFor rr.kind) = false)
    (hupd : env.updateRequest = UpdateOutcome.ok) :
    dynamicReconcile cfg reqNs reqName s env =
      some ⟨{ s with request := some { rr with finalizers := rr.finalizers ++
        ["finalizers." ++ lowercase rr.kind ++ ".resource-request.kratix.io/work-cleanup"] } },
        ⟨0⟩, none, none⟩ := by
  have hfin2 :
      ("finalizers." ++ lowercase rr.kind ++ ".resource-request.kratix.io/work-cleanup") ∉
        rr.finalizers := by
    simpa [finalizerFor] using hfin
  simp [dynamicReconcile, hreq, hdel, hfin2, hupd, finalizerFor]

/-- Witness for C6 amended at a concrete Redis request. -/
theorem finalizer_token_amended_witness :
    dynamicReconcile redisCfg "default" "second-redis"
        ⟨some ⟨"Redis", "default", "second-redis", false, []⟩, [], []⟩ allOkDynEnv =
      some ⟨⟨some ⟨"Redis", "default", "second-redis", false,
        ["finalizers." ++ lowercase "Redis" ++ ".resource-request.kratix.io/work-cleanup"]⟩, [], []⟩,
        ⟨0⟩, none, none⟩ :=
  finalizer_token_amended redisCfg "default" "second-redis"
    ⟨some ⟨"Redis", "default", "second-redis", false, []⟩, [], []⟩ allOkDynEnv
    ⟨"Redis", "default", "second-redis", false, []⟩ rfl rfl (by decide) rfl

/-- C7 counterexample: for a Promise declaring two pipeline images, the
constructed executor contains no container running the second image,
and only two init containers (the synthesized reader plus a single
declared-image stage). -/
theorem pipeline_images_counterexample :
    (buildPipelinePod twoImageCfg "redis-default-default-my-redis" "my-redis" "default"
        "wc-img" "abcde").map
        (fun p => ((p.initContainers ++ p.containers).filter (fun c => c.image == "imageB")).length) =
      some 0
    ∧ (buildPipelinePod twoImageCfg "redis-default-default-my-redis" "my-redis" "default"
        "wc-img" "abcde").map (fun p => p.initContainers.length) = some 2 := by
  decide

/-- C7 amended: the constructed executor runs exactly the first
declared pipeline image, as the single declared-image stage, after the
synthesized materialization (reader) stage and before the final writer
step, with the stage mounting the shared input, output and metadata
staging areas (see pipelineStageContainer); the remaining declared
images do not appear. -/
theorem pipeline_first_image_only (cfg : DynamicControllerCfg)
    (rrId reqName reqNs wcImg uuid img : String) (rest : List String)
    (hp : cfg.xaasRequestPipeline = img :: rest) :
    buildPipelinePod cfg rrId reqName reqNs wcImg uuid =
      some { name := "request-pipeline-" ++ cfg.promiseIdentifier ++ "-" ++ uuid
             nspace := "default"
             labels := [("kratix-promise-id", cfg.promiseIdentifier),
               ("kratix-promise-resource-request-id", rrId)]
             serviceAccountName := cfg.promiseIdentifier ++ "-sa"
             initContainers := [readerContainer cfg.gvk reqName reqNs, pipelineStageContainer img]
             containers := [writerContainer wcImg rrId]
             volumes := ["input", "output", "metadata", "promise-cluster-selectors"] } := by
  simp [buildPipelinePod, hp]

/-- Witness for C7 amended: with two declared images, only imageA is
wired into the pod. -/
theorem pipeline_first_image_only_witness :
    buildPipelinePod twoImageCfg "redis-default-default-my-redis" "my-redis" "default"
        "wc-img" "abcde" =
      some { name := "request-pipeline-" ++ twoImageCfg.promiseIdentifier ++ "-" ++ "abcde"
             nspace := "default"
             labels := [("kratix-promise-id", twoImageCfg.promiseIdentifier),
               ("kratix-promise-resource-request-id", "redis-default-default-my-redis")]
             serviceAccountName := twoImageCfg.promiseIdentifier ++ "-sa"
             initContainers := [readerContainer twoImageCfg.gvk "my-redis" "default",
               pipelineStageContainer "imageA"]
             containers := [writerContainer "wc-img" "redis-default-default-my-redis"]
             volumes := ["input", "output", "metadata", "promise-cluster-selectors"] } :=
  pipeline_first_image_only twoImageCfg "redis-default-default-my-redis" "my-redis" "default"
    "wc-img" "abcde" "imageA" ["imageB"] rfl

/-- C10: for an active request whose pipeline has not yet run, the
launch path reads element 0 of the declared image list with no bounds
check: the reconciliation panics (returns none) exactly when the
declared image list is empty, and is total otherwise. -/
theorem empty_pipeline_panics (cfg : DynamicControllerCfg) (reqNs reqName : String)
    (s : DynState) (env : DynEnv) (rr : ResourceRequest)
    (hreq : s.request = some rr) (hdel : rr.deletionRequested = false)
    (hfin : rr.finalizers.contains (finalizerFor rr.kind) = true)
    (hrun : pipelineHasExecuted s.pods
      (cfg.promiseIdentifier ++ "-" ++ reqNs ++ "-" ++ reqName) env.listPodsErr = false) :
    dynamicReconcile cfg reqNs reqName s env = none ↔ cfg.xaasRequestPipeline = [] := by
  have hfin2 : finalizerFor rr.kind ∈ rr.finalizers := by simpa using hfin
  rcases hp : cfg.xaasRequestPipeline with _ | ⟨a, l⟩ <;>
    simp [dynamicReconcile, hreq, hdel, hfin2, hrun, buildPipelinePod, hp]

/-- Witness for C10: reconciling an active request under a Promise with
an empty pipeline list panics. -/
theorem empty_pipeline_panics_witness :
    dynamicReconcile emptyPipelineCfg "default" "my-redis"
        ⟨some activeRedisRequest, [], []⟩ allOkDynEnv = none :=
  (empty_pipeline_panics emptyPipelineCfg "default" "my-redis"
      ⟨some activeRedisRequest, [], []⟩ allOkDynEnv activeRedisRequest
      rfl rfl (by decide) (by decide)).mpr rfl

end Kratix
